import Mathlib

/-!
Shallow embedding of the reconciliation core of validator-plugin-azure:
the single-rule role-assignment validator (two source variants), the
multi-scope RBAC validator, the role-identifier resolution chain and the
validation-result builder, together with theorems settling the frozen
claims about them.

Embedding conventions:
- Go `(*T, error)` returns become `T × Option VError` (the result pointer is
  never nil in the first variant and RBAC) or `Option T × Option VError`
  (second variant, which returns a nil result on its error paths).
- Go maps used only for membership (`foundRoleNames map[string]bool`,
  `rolelookupMap map[string]string`) become a key list with `contains`
  membership and a `String → Option String` lookup function respectively;
  only membership and lookup are ever consulted, so this is observationally
  faithful.
- The injected collaborators (the Azure API facade, the role-lookup-map
  provider) are function parameters, exactly as they are injected fields of
  the Go services.
- `azure_utils.RoleNameFromRoleDefinitionID` and
  `azure_utils.RoleAssignmentScopeSubscription` live in a package outside
  the provided sources; they are passed as function parameters (`rnfrd`,
  `scopeSub`), so every theorem quantifies over their behaviour.
- `url.QueryEscape` percent-escaping of the principal filter is omitted
  (standard-library string formatting; no claim depends on the filter text).
-/

namespace AzureValidator

/-- `v1alpha1.Role` from api/v1alpha1/azurevalidator_types.go: `Name` is the
canonical id of a role, `RoleName` its human-friendly name; both optional. -/
structure Role where
  name : Option String
  roleName : Option String
deriving DecidableEq

/-- `v1alpha1.RoleAssignmentRule` from api/v1alpha1/azurevalidator_types.go. -/
structure RoleAssignmentRule where
  roles : List Role
  servicePrincipalID : String
  subscriptionID : String
deriving DecidableEq

/-- Modelled from the spec: `v1alpha1.PermissionSet` is declared outside the
provided sources; per spec section 3 and its use in rbac.go it is
`{scope: string, desiredRole: RoleReference}` (fields `Scope`, `Role`). -/
structure PermissionSet where
  scope : String
  role : Role
deriving DecidableEq

/-- Modelled from the spec: `v1alpha1.RBACRule` is declared outside the
provided sources; per spec section 3 and its use in rbac.go it carries a
security principal id and an ordered list of permission sets. -/
structure RBACRule where
  securityPrincipalID : String
  permissions : List PermissionSet
deriving DecidableEq

/-- `armauthorization.RoleAssignmentProperties` as consulted by the core:
only `RoleDefinitionID` is read, a nilable string pointer. -/
structure RoleAssignmentProperties where
  roleDefinitionID : Option String
deriving DecidableEq

/-- `armauthorization.RoleAssignment` as consulted by the core: only the
nilable `Properties` field is read. -/
structure RoleAssignment where
  properties : Option RoleAssignmentProperties
deriving DecidableEq

/-- `vapi.ValidationState`: the two terminal states used by the core. -/
inductive ValidationState where
  | Succeeded
  | Failed
deriving DecidableEq

/-- `vapi.ValidationCondition` restricted to the fields the core writes.
`status` is the k8s condition status: `true` models `ConditionTrue`. -/
structure ValidationCondition where
  validationType : String
  validationRule : String
  message : String
  details : List String
  failures : List String
  status : Bool
deriving DecidableEq

/-- `vapitypes.ValidationResult`: a condition plus a state. -/
structure ValidationResult where
  condition : ValidationCondition
  state : ValidationState
deriving DecidableEq

/-- Modelled from the spec: `vapi.DefaultValidationCondition()` comes from the
external validator dependency; it yields an optimistic condition with empty
details/failures and a true status (the timestamp it also sets is not part of
the data model of spec section 3 and is omitted). -/
def defaultValidationCondition : ValidationCondition :=
  { validationType := ""
    validationRule := ""
    message := ""
    details := []
    failures := []
    status := true }

/-- The hard errors the reconciliation functions can return.
`noSuchBuiltInRole` embeds `errNoSuchBuiltInRole`, `noRoleIdentifierSpecified`
embeds `errNoRoleIdentifierSpecified`; the others wrap collaborator or
malformed-data errors with their message strings. -/
inductive VError where
  | apiError (msg : String)
  | lookupError (msg : String)
  | scopeParseError (msg : String)
  | noSuchBuiltInRole
  | noRoleIdentifierSpecified
  | malformedResponse (msg : String)
deriving DecidableEq

/-- Modelled from the spec: `vapiconstants.ValidationRulePrefix` from the
external validator dependency; an opaque string constant no claim depends on. -/
def validationRulePfx : String := "validation"

/-- Modelled from the spec: `constants.ValidationTypeRoleAssignment` from the
internal constants package outside the provided sources; opaque constant. -/
def validationTypeRoleAssignment : String := "azure-role-assignment"

/-- Modelled from the spec: `constants.ValidationTypeRBAC` from the internal
constants package outside the provided sources; opaque constant. -/
def validationTypeRBAC : String := "azure-rbac"

/-- The principal filter string `"principalId eq <id>"` built by both
validators (percent-escaping by `url.QueryEscape` omitted, see header). -/
def principalIDFilter (principalID : String) : String :=
  "principalId eq \x27" ++ principalID ++ "\x27"

/-- The found-role-set loop shared by the first-variant
`ReconcileRoleAssignmentRule` (role_assignment.go) and `processPermissionSet`
(rbac.go): grants whose `Properties` or `Properties.RoleDefinitionID` is nil
are passed over, the rest contribute `rnfrd` of their role definition id.
The Go `map[string]bool` is modelled as the list of inserted keys; only
membership is ever consulted. -/
def foundRoleNames (rnfrd : String → String) : List RoleAssignment → List String
  | [] => []
  | ra :: rest =>
    match ra.properties with
    | some props =>
      match props.roleDefinitionID with
      | some rdID => rnfrd rdID :: foundRoleNames rnfrd rest
      | none => foundRoleNames rnfrd rest
    | none => foundRoleNames rnfrd rest

/-- Whether a grant carries a role-definition reference (both pointers
non-nil); the well-formedness test of spec section 4.2. -/
def hasRoleDefinitionID (ra : RoleAssignment) : Bool :=
  match ra.properties with
  | some props => props.roleDefinitionID.isSome
  | none => false

/-- The role-resolution chain of the first-variant
`ReconcileRoleAssignmentRule` (role_assignment.go lines 66-89): a set `Name`
is used unchanged; otherwise a set `RoleName` is looked up in the map the
injected provider yields for the subscription; otherwise
`errNoRoleIdentifierSpecified`. -/
def resolveRole (getRoleLookupMap : String → Except String (String → Option String))
    (subscriptionID : String) (role : Role) : Except VError String :=
  match role.name with
  | some n => .ok n
  | none =>
    match role.roleName with
    | some specifiedRoleName =>
      match getRoleLookupMap subscriptionID with
      | .error e => .error (.lookupError e)
      | .ok rolelookupMap =>
        match rolelookupMap specifiedRoleName with
        | some foundName => .ok foundName
        | none => .error .noSuchBuiltInRole
    | none => .error .noRoleIdentifierSpecified

/-- The per-role loop of the first-variant `ReconcileRoleAssignmentRule`
(lines 65-95): resolve each desired role in input order, abort on the first
resolution error, otherwise append a failure for each resolved role absent
from the found set. -/
def roleFailures (getRoleLookupMap : String → Except String (String → Option String))
    (subscriptionID : String) (found : List String) :
    List Role → Except VError (List String)
  | [] => .ok []
  | role :: rest =>
    match resolveRole getRoleLookupMap subscriptionID role with
    | .error e => .error e
    | .ok roleName =>
      match roleFailures getRoleLookupMap subscriptionID found rest with
      | .error e => .error e
      | .ok fs =>
        .ok (if found.contains roleName then fs
             else ("Service principal missing role " ++ roleName) :: fs)

/-- The optimistic-success result the first-variant
`ReconcileRoleAssignmentRule` builds before doing any work (lines 40-45). -/
def roleAssignmentBaseResult (rule : RoleAssignmentRule) : ValidationResult :=
  { condition := { defaultValidationCondition with
      message := "Service principal has all required roles."
      validationRule := validationRulePfx ++ "-" ++ rule.servicePrincipalID
      validationType := validationTypeRoleAssignment }
    state := .Succeeded }

/-- First-variant `ReconcileRoleAssignmentRule` (role_assignment.go lines
37-105). `listRoleAssignmentsForSubscription` is the injected
`roleAssignmentAPI.ListRoleAssignmentsForSubscription`, applied to the
subscription id and the principal filter; `getRoleLookupMap` the injected
provider; `rnfrd` is `azure_utils.RoleNameFromRoleDefinitionID`. Returns the
result pointer and the error of the Go signature. -/
def reconcileRoleAssignmentRule (rnfrd : String → String)
    (listRoleAssignmentsForSubscription : String → String → Except String (List RoleAssignment))
    (getRoleLookupMap : String → Except String (String → Option String))
    (rule : RoleAssignmentRule) : ValidationResult × Option VError :=
  let validationResult := roleAssignmentBaseResult rule
  match listRoleAssignmentsForSubscription rule.subscriptionID
      (principalIDFilter rule.servicePrincipalID) with
  | .error e => (validationResult, some (.apiError e))
  | .ok roleAssignments =>
    let found := foundRoleNames rnfrd roleAssignments
    match roleFailures getRoleLookupMap rule.subscriptionID found rule.roles with
    | .error e => (validationResult, some e)
    | .ok failures =>
      if failures.length > 0 then
        ({ condition := { validationResult.condition with
             failures := failures
             message := "Service principal missing one or more required roles."
             status := false }
           state := .Failed }, none)
      else (validationResult, none)

/-- The role-resolution chain of `processPermissionSet` (rbac.go lines
103-135): as `resolveRole`, except that when a lookup is needed the
subscription is first parsed out of the permission set scope by
`azure_utils.RoleAssignmentScopeSubscription` (the `scopeSub` parameter),
whose failure is a hard error. -/
def resolvePermissionSetRole
    (getRoleLookupMap : String → Except String (String → Option String))
    (scopeSub : String → Except String String)
    (set : PermissionSet) : Except VError String :=
  match set.role.name with
  | some n => .ok n
  | none =>
    match set.role.roleName with
    | some specifiedRoleName =>
      match scopeSub set.scope with
      | .error e => .error (.scopeParseError e)
      | .ok subForLookup =>
        match getRoleLookupMap subForLookup with
        | .error e => .error (.lookupError e)
        | .ok rolelookupMap =>
          match rolelookupMap specifiedRoleName with
          | some foundName => .ok foundName
          | none => .error .noSuchBuiltInRole
    | none => .error .noRoleIdentifierSpecified

/-- `processPermissionSet` (rbac.go lines 80-145): fetch the grants at the
set scope filtered by principal, build the found-role set, resolve the set
role, and append one failure to the accumulated list when the resolved role
is absent. The `failures *[]string` out-parameter is modelled by taking the
incoming list and returning the updated one. -/
def processPermissionSet (rnfrd : String → String)
    (listRoleAssignmentsForScope : String → String → Except String (List RoleAssignment))
    (getRoleLookupMap : String → Except String (String → Option String))
    (scopeSub : String → Except String String)
    (set : PermissionSet) (principalID : String) (failures : List String) :
    Except VError (List String) :=
  match listRoleAssignmentsForScope set.scope (principalIDFilter principalID) with
  | .error e => .error (.apiError ("failed to get role assignments: " ++ e))
  | .ok roleAssignments =>
    let found := foundRoleNames rnfrd roleAssignments
    match resolvePermissionSetRole getRoleLookupMap scopeSub set with
    | .error e => .error e
    | .ok roleName =>
      if found.contains roleName then .ok failures
      else .ok (failures ++ ["Security principal missing role " ++ roleName])

/-- The permission-set loop of `ReconcileRBACRule` (rbac.go lines 55-62):
process the sets in input order, stopping at the first hard error. -/
def processPermissionSets (rnfrd : String → String)
    (listRoleAssignmentsForScope : String → String → Except String (List RoleAssignment))
    (getRoleLookupMap : String → Except String (String → Option String))
    (scopeSub : String → Except String String)
    (principalID : String) :
    List PermissionSet → List String → Except VError (List String)
  | [], failures => .ok failures
  | set :: rest, failures =>
    match processPermissionSet rnfrd listRoleAssignmentsForScope getRoleLookupMap
        scopeSub set principalID failures with
    | .error e => .error e
    | .ok failures2 =>
      processPermissionSets rnfrd listRoleAssignmentsForScope getRoleLookupMap
        scopeSub principalID rest failures2

/-- The optimistic-success result `ReconcileRBACRule` builds before doing any
work (rbac.go lines 46-51). -/
def rbacBaseResult (rule : RBACRule) : ValidationResult :=
  { condition := { defaultValidationCondition with
      message := "Security principal has all required roles."
      validationRule := validationRulePfx ++ "-" ++ rule.securityPrincipalID
      validationType := validationTypeRBAC }
    state := .Succeeded }

/-- `ReconcileRBACRule` (rbac.go lines 43-72). -/
def reconcileRBACRule (rnfrd : String → String)
    (listRoleAssignmentsForScope : String → String → Except String (List RoleAssignment))
    (getRoleLookupMap : String → Except String (String → Option String))
    (scopeSub : String → Except String String)
    (rule : RBACRule) : ValidationResult × Option VError :=
  let validationResult := rbacBaseResult rule
  match processPermissionSets rnfrd listRoleAssignmentsForScope getRoleLookupMap
      scopeSub rule.securityPrincipalID rule.permissions [] with
  | .error e => (validationResult, some e)
  | .ok failures =>
    if failures.length > 0 then
      ({ condition := { validationResult.condition with
           failures := failures
           message := "Security principal missing one or more required roles."
           status := false }
         state := .Failed }, none)
    else (validationResult, none)

/-!
Second source variant of the single-rule validator (the other half of
role_assignment.go): interface-shaped rule, pager-based fetch, role-derived
result identifier, and nil-result error paths.
-/

/-- The data behind the `roleAssignmentRule` interface of the second variant
(`GetRole`, `GetServicePrincipalID`, `GetSubscriptionID`). -/
structure RoleAssignmentRuleData where
  role : Role
  servicePrincipalID : String
  subscriptionID : String
deriving DecidableEq

/-- The best-effort identifier derivation shared by `buildValidationResult`
and `failValidationResult` (role_assignment.go lines 250-256 and 270-276):
the friendly `RoleName` if set, else the canonical `Name`, else the
`"invalid-config"` sentinel. -/
def ruleIdentifier (rule : RoleAssignmentRuleData) : String :=
  match rule.role.roleName with
  | some rn => rn
  | none =>
    match rule.role.name with
    | some n => n
    | none => "invalid-config"

/-- `buildValidationResult` (role_assignment.go lines 245-265): the
optimistic-success result of the second variant, identified by the
role-derived label. -/
def buildValidationResult (rule : RoleAssignmentRuleData) (validationType : String) :
    ValidationResult :=
  { condition := { defaultValidationCondition with
      message := "Required role assignment was found."
      validationRule := validationRulePfx ++ "-" ++ ruleIdentifier rule
      validationType := validationType }
    state := .Succeeded }

/-- `failValidationResult` (role_assignment.go lines 269-285): the one-way
mutation of a result to a failed state, modelled as returning the updated
value. It sets details, message, a false status, the identifier and the
type, and the Failed state; it does not touch the failures list. -/
def failValidationResult (result : ValidationResult) (rule : RoleAssignmentRuleData)
    (validationType message : String) (details : List String) : ValidationResult :=
  { condition := { result.condition with
      details := details
      message := message
      status := false
      validationRule := validationRulePfx ++ "-" ++ ruleIdentifier rule
      validationType := validationType }
    state := .Failed }

/-- The match loop of the second variant (role_assignment.go lines 225-232):
a grant with nil `Properties` or nil `Properties.RoleDefinitionID` is a hard
error; otherwise return whether some grant maps to the wanted role name. -/
def scanForRole (rnfrd : String → String) (roleName : String) :
    List RoleAssignment → Except String Bool
  | [] => .ok false
  | ra :: rest =>
    match ra.properties with
    | none => .error "data from Azure API response malformed; missing Properties.RoleDefinitionID"
    | some props =>
      match props.roleDefinitionID with
      | none => .error "data from Azure API response malformed; missing Properties.RoleDefinitionID"
      | some rdID =>
        if rnfrd rdID = roleName then .ok true
        else scanForRole rnfrd roleName rest

/-- The details list of the second variant `"Desired role assignment not
found."` failure (role_assignment.go lines 234-239). -/
def notFoundDetails (rule : RoleAssignmentRuleData) : List String :=
  ["specified role name of role? " ++ (if rule.role.roleName.isSome then "true" else "false"),
   "specified name of role? " ++ (if rule.role.name.isSome then "true" else "false"),
   "specified service principal ID = \x22" ++ rule.servicePrincipalID ++ "\x22",
   "specified subscription ID = \x22" ++ rule.subscriptionID ++ "\x22"]

/-- The tail of the second variant after the role name is known
(role_assignment.go lines 223-240): scan the fetched grants; a malformed
grant is a hard error with a nil result, a match returns the optimistic
result, no match returns the failed result. -/
def finishRoleScan (rnfrd : String → String) (vr : ValidationResult)
    (rule : RoleAssignmentRuleData) (roleName : String)
    (roleAssignmentsFound : List RoleAssignment) :
    Option ValidationResult × Option VError :=
  match scanForRole rnfrd roleName roleAssignmentsFound with
  | .error e => (none, some (.malformedResponse e))
  | .ok true => (some vr, none)
  | .ok false =>
    (some (failValidationResult vr rule validationTypeRoleAssignment
      "Desired role assignment not found." (notFoundDetails rule)), none)

/-- Second-variant `ReconcileRoleAssignmentRule` (role_assignment.go lines
156-241). `pagedRoleAssignments` stands for draining the subscription pager:
either the fully materialized grant list or the first page error (which the
Go wraps and returns with a nil result). `builtInRoleLookupMap` is
`azure_utils.BuiltInRoleLookupMap`, also outside the provided sources. -/
def reconcileRoleAssignmentRule2 (rnfrd : String → String)
    (pagedRoleAssignments : Except String (List RoleAssignment))
    (builtInRoleLookupMap : String → Except String (String → Option String))
    (rule : RoleAssignmentRuleData) : Option ValidationResult × Option VError :=
  let vr := buildValidationResult rule validationTypeRoleAssignment
  match pagedRoleAssignments with
  | .error e =>
    (none, some (.apiError ("failed to retrieve next page of role assignment results from pager: " ++ e)))
  | .ok roleAssignmentsFound =>
    if roleAssignmentsFound.length = 0 then
      (some { condition := { defaultValidationCondition with
                status := false
                message := "No role assignments found." }
              state := .Failed }, none)
    else
      match rule.role.name with
      | some n => finishRoleScan rnfrd vr rule n roleAssignmentsFound
      | none =>
        match rule.role.roleName with
        | some specifiedRoleName =>
          match builtInRoleLookupMap rule.subscriptionID with
          | .error e => (none, some (.lookupError ("failed to get role lookup map: " ++ e)))
          | .ok rolelookupMap =>
            match rolelookupMap specifiedRoleName with
            | some foundName => finishRoleScan rnfrd vr rule foundName roleAssignmentsFound
            | none =>
              (some (failValidationResult vr rule validationTypeRoleAssignment
                "Role name specified does not exist. Cannot validate."
                ["provided role name: \x22" ++ specifiedRoleName ++ "\x22"]), none)
        | none =>
          (some (failValidationResult vr rule validationTypeRoleAssignment
            "Neither role name nor name specified. Cannot validate." []), none)

/-!
Spec-side characterizations, used to state the refinement claims: these
follow the spec wording (one entry per absent desired role, in input order)
and are proved equal to what the loops above compute.
-/

/-- Whether resolving a role succeeds (used as a decidable hypothesis form). -/
def resolvesOk (getRoleLookupMap : String → Except String (String → Option String))
    (subscriptionID : String) (role : Role) : Bool :=
  match resolveRole getRoleLookupMap subscriptionID role with
  | .ok _ => true
  | .error _ => false

/-- Spec-side description of the single-rule failure list: one
`"Service principal missing role <id>"` entry per desired role whose resolved
canonical id is absent from the found set, in the input order of the desired
roles; roles that fail to resolve contribute nothing (that case is excluded
by hypothesis wherever this is used). -/
def specMissingRoles (getRoleLookupMap : String → Except String (String → Option String))
    (subscriptionID : String) (found : List String) (roles : List Role) : List String :=
  roles.filterMap (fun role =>
    match resolveRole getRoleLookupMap subscriptionID role with
    | .ok roleName =>
      if found.contains roleName then none
      else some ("Service principal missing role " ++ roleName)
    | .error _ => none)

/-- Whether a permission set processes without a hard error: its grant fetch
succeeds and its role resolves. -/
def setProcessOk (listRoleAssignmentsForScope : String → String → Except String (List RoleAssignment))
    (getRoleLookupMap : String → Except String (String → Option String))
    (scopeSub : String → Except String String)
    (principalID : String) (set : PermissionSet) : Bool :=
  (match listRoleAssignmentsForScope set.scope (principalIDFilter principalID) with
   | .ok _ => true
   | .error _ => false)
  && (match resolvePermissionSetRole getRoleLookupMap scopeSub set with
      | .ok _ => true
      | .error _ => false)

/-- Spec-side description of one permission set's contribution to the final
failure list: nothing when its resolved role is present in its grant set (or
when the set hard-errors), and one entry naming the missing role otherwise. -/
def specSetContribution (rnfrd : String → String)
    (listRoleAssignmentsForScope : String → String → Except String (List RoleAssignment))
    (getRoleLookupMap : String → Except String (String → Option String))
    (scopeSub : String → Except String String)
    (principalID : String) (set : PermissionSet) : Option String :=
  match listRoleAssignmentsForScope set.scope (principalIDFilter principalID),
        resolvePermissionSetRole getRoleLookupMap scopeSub set with
  | .ok roleAssignments, .ok roleName =>
    if (foundRoleNames rnfrd roleAssignments).contains roleName then none
    else some ("Security principal missing role " ++ roleName)
  | _, _ => none

/-!
Helper lemmas relating the loops to the spec-side descriptions.
-/

/-- Grants without a role-definition reference do not contribute to the
found-role set: filtering them away first changes nothing. -/
theorem foundRoleNames_filter (rnfrd : String → String) (ras : List RoleAssignment) :
    foundRoleNames rnfrd (ras.filter hasRoleDefinitionID) = foundRoleNames rnfrd ras := by
  induction ras with
  | nil => rfl
  | cons ra rest ih =>
    cases hprops : ra.properties with
    | none =>
      simp [List.filter_cons, hasRoleDefinitionID, hprops, foundRoleNames, ih]
    | some props =>
      cases hrd : props.roleDefinitionID with
      | none =>
        simp [List.filter_cons, hasRoleDefinitionID, hprops, hrd, foundRoleNames, ih]
      | some rdID =>
        simp [List.filter_cons, hasRoleDefinitionID, hprops, hrd, foundRoleNames, ih]

/-- When every desired role resolves, the per-role loop of the first-variant
single-rule validator computes exactly the spec-side missing-role list. -/
theorem roleFailures_eq_spec
    (getRoleLookupMap : String → Except String (String → Option String))
    (subscriptionID : String) (found : List String) (roles : List Role)
    (h : roles.all (resolvesOk getRoleLookupMap subscriptionID) = true) :
    roleFailures getRoleLookupMap subscriptionID found roles
      = .ok (specMissingRoles getRoleLookupMap subscriptionID found roles) := by
  induction roles with
  | nil => rfl
  | cons role rest ih =>
    rw [List.all_cons, Bool.and_eq_true] at h
    obtain ⟨h1, h2⟩ := h
    unfold resolvesOk at h1
    cases hres : resolveRole getRoleLookupMap subscriptionID role with
    | error e => rw [hres] at h1; simp at h1
    | ok roleName =>
      rw [roleFailures, hres, ih h2]
      unfold specMissingRoles
      rw [List.filterMap_cons]
      simp only [hres]
      by_cases hmem : roleName ∈ found <;> simp [hmem]

/-- When every permission set fetches and resolves without a hard error, the
permission-set loop of the RBAC validator appends exactly the spec-side
contribution of each set, in input order. -/
theorem processPermissionSets_eq_spec (rnfrd : String → String)
    (listRoleAssignmentsForScope : String → String → Except String (List RoleAssignment))
    (getRoleLookupMap : String → Except String (String → Option String))
    (scopeSub : String → Except String String)
    (principalID : String) (sets : List PermissionSet) (failures : List String)
    (h : sets.all (setProcessOk listRoleAssignmentsForScope getRoleLookupMap scopeSub principalID) = true) :
    processPermissionSets rnfrd listRoleAssignmentsForScope getRoleLookupMap scopeSub
        principalID sets failures
      = .ok (failures ++ sets.filterMap
          (specSetContribution rnfrd listRoleAssignmentsForScope getRoleLookupMap
            scopeSub principalID)) := by
  induction sets generalizing failures with
  | nil => simp [processPermissionSets]
  | cons set rest ih =>
    rw [List.all_cons, Bool.and_eq_true] at h
    obtain ⟨h1, h2⟩ := h
    unfold setProcessOk at h1
    rw [Bool.and_eq_true] at h1
    obtain ⟨ha, hr⟩ := h1
    cases hapi : listRoleAssignmentsForScope set.scope (principalIDFilter principalID) with
    | error e => rw [hapi] at ha; simp at ha
    | ok roleAssignments =>
      cases hres : resolvePermissionSetRole getRoleLookupMap scopeSub set with
      | error e => rw [hres] at hr; simp at hr
      | ok roleName =>
        rw [processPermissionSets, processPermissionSet, hapi, hres]
        rw [List.filterMap_cons]
        have hcontrib : specSetContribution rnfrd listRoleAssignmentsForScope getRoleLookupMap
            scopeSub principalID set
            = if (foundRoleNames rnfrd roleAssignments).contains roleName then none
              else some ("Security principal missing role " ++ roleName) := by
          unfold specSetContribution
          rw [hapi, hres]
        rw [hcontrib]
        by_cases hmem : roleName ∈ foundRoleNames rnfrd roleAssignments <;>
          simp [hmem, ih _ h2]

/-- If every desired role before position `k` resolves and the role at `k`
fails to resolve with `e`, the per-role loop of the first-variant single-rule
validator aborts with exactly `e` (the accumulated failures are discarded). -/
theorem roleFailures_error_at
    (getRoleLookupMap : String → Except String (String → Option String))
    (subscriptionID : String) (found : List String)
    (pre : List Role) (role : Role) (rest : List Role) (e : VError)
    (hrole : resolveRole getRoleLookupMap subscriptionID role = .error e) :
    pre.all (resolvesOk getRoleLookupMap subscriptionID) = true
    → roleFailures getRoleLookupMap subscriptionID found (pre ++ role :: rest)
        = .error e := by
  induction pre with
  | nil =>
    intro _
    simp [roleFailures, hrole]
  | cons p pre2 ih =>
    intro hpre
    rw [List.all_cons, Bool.and_eq_true] at hpre
    obtain ⟨h1, h2⟩ := hpre
    unfold resolvesOk at h1
    cases hres : resolveRole getRoleLookupMap subscriptionID p with
    | error e2 => rw [hres] at h1; simp at h1
    | ok n => simp [List.cons_append, roleFailures, hres, ih h2]

/-- If every permission set before position `k` processes without a hard
error and the set at `k` fetches fine but fails role resolution with `e`,
the permission-set loop of the RBAC validator aborts with exactly `e`. -/
theorem processPermissionSets_error_at (rnfrd : String → String)
    (api : String → String → Except String (List RoleAssignment))
    (getRoleLookupMap : String → Except String (String → Option String))
    (scopeSub : String → Except String String) (principalID : String)
    (pre : List PermissionSet) (set : PermissionSet) (rest : List PermissionSet)
    (e : VError) (ras : List RoleAssignment) (failures : List String)
    (hapi : api set.scope (principalIDFilter principalID) = .ok ras)
    (hres : resolvePermissionSetRole getRoleLookupMap scopeSub set = .error e) :
    pre.all (setProcessOk api getRoleLookupMap scopeSub principalID) = true
    → processPermissionSets rnfrd api getRoleLookupMap scopeSub principalID
        (pre ++ set :: rest) failures = .error e := by
  induction pre generalizing failures with
  | nil =>
    intro _
    simp [processPermissionSets, processPermissionSet, hapi, hres]
  | cons p pre2 ih =>
    intro hpre
    rw [List.all_cons, Bool.and_eq_true] at hpre
    obtain ⟨h1, h2⟩ := hpre
    unfold setProcessOk at h1
    rw [Bool.and_eq_true] at h1
    obtain ⟨ha, hr⟩ := h1
    cases hapi2 : api p.scope (principalIDFilter principalID) with
    | error e2 => rw [hapi2] at ha; simp at ha
    | ok ras2 =>
      cases hres2 : resolvePermissionSetRole getRoleLookupMap scopeSub p with
      | error e2 => rw [hres2] at hr; simp at hr
      | ok rn =>
        simp only [List.cons_append, processPermissionSets, processPermissionSet, hapi2, hres2]
        by_cases hmem : rn ∈ foundRoleNames rnfrd ras2 <;> simp [hmem, ih _ h2]

/-!
Claim theorems.
-/

/-- C1, counterexample: a grant with nil `Properties` sits in the fetched
sequence, yet the first-variant `ReconcileRoleAssignmentRule` completes with
no error and a Succeeded state (the other grant satisfies the rule), and
`processPermissionSet` likewise returns ok — the malformed grant is skipped,
not a hard error. -/
theorem c1_counterexample :
    (reconcileRoleAssignmentRule id
        (fun _ _ => .ok [⟨none⟩, ⟨some ⟨some "r"⟩⟩])
        (fun _ => .error "unused")
        ⟨[⟨some "r", none⟩], "p", "s"⟩).2 = none
    ∧ (reconcileRoleAssignmentRule id
        (fun _ _ => .ok [⟨none⟩, ⟨some ⟨some "r"⟩⟩])
        (fun _ => .error "unused")
        ⟨[⟨some "r", none⟩], "p", "s"⟩).1.state = .Succeeded
    ∧ processPermissionSet id
        (fun _ _ => .ok [⟨none⟩, ⟨some ⟨some "r"⟩⟩])
        (fun _ => .error "unused") (fun _ => .error "unused")
        ⟨"scope1", ⟨some "r", none⟩⟩ "p" [] = .ok [] :=
  ⟨rfl, rfl, rfl⟩

/-- C1, amended: in the first-variant `ReconcileRoleAssignmentRule` and in
`processPermissionSet`, grants with a missing role-definition reference (nil
`Properties` or nil `RoleDefinitionID`) are silently skipped when the
found-role set is built: the outcome is identical to that on the fetched
sequence with the malformed grants filtered away, and no error arises from
them. (The second-variant single-rule validator is the one that hard-errors
on malformed grants.) -/
theorem c1_amended (rnfrd : String → String) (ras : List RoleAssignment)
    (getRoleLookupMap : String → Except String (String → Option String))
    (scopeSub : String → Except String String)
    (rule : RoleAssignmentRule) (set : PermissionSet)
    (principalID : String) (failures : List String) :
    reconcileRoleAssignmentRule rnfrd (fun _ _ => .ok ras) getRoleLookupMap rule
      = reconcileRoleAssignmentRule rnfrd (fun _ _ => .ok (ras.filter hasRoleDefinitionID))
          getRoleLookupMap rule
    ∧ processPermissionSet rnfrd (fun _ _ => .ok ras) getRoleLookupMap scopeSub
        set principalID failures
      = processPermissionSet rnfrd (fun _ _ => .ok (ras.filter hasRoleDefinitionID))
          getRoleLookupMap scopeSub set principalID failures := by
  constructor
  · simp only [reconcileRoleAssignmentRule, foundRoleNames_filter]
  · simp only [processPermissionSet, foundRoleNames_filter]

/-- C2: for a single-scope rule whose desired roles all resolve and whose
grant fetch succeeds, the first-variant `ReconcileRoleAssignmentRule` returns
no error, its failures list is exactly one entry per desired role whose
resolved canonical id is absent from the fetched grant set, in the input
order of the desired roles, and the state is Succeeded with empty failures
iff no resolved role is absent, Failed otherwise. -/
theorem c2_single_rule_failures (rnfrd : String → String)
    (api : String → String → Except String (List RoleAssignment))
    (getRoleLookupMap : String → Except String (String → Option String))
    (rule : RoleAssignmentRule) (ras : List RoleAssignment)
    (hapi : api rule.subscriptionID (principalIDFilter rule.servicePrincipalID) = .ok ras)
    (hres : rule.roles.all (resolvesOk getRoleLookupMap rule.subscriptionID) = true) :
    (reconcileRoleAssignmentRule rnfrd api getRoleLookupMap rule).2 = none
    ∧ (reconcileRoleAssignmentRule rnfrd api getRoleLookupMap rule).1.condition.failures
        = specMissingRoles getRoleLookupMap rule.subscriptionID
            (foundRoleNames rnfrd ras) rule.roles
    ∧ ((reconcileRoleAssignmentRule rnfrd api getRoleLookupMap rule).1.state = .Succeeded
        ↔ specMissingRoles getRoleLookupMap rule.subscriptionID
            (foundRoleNames rnfrd ras) rule.roles = [])
    ∧ (specMissingRoles getRoleLookupMap rule.subscriptionID
          (foundRoleNames rnfrd ras) rule.roles ≠ []
        → (reconcileRoleAssignmentRule rnfrd api getRoleLookupMap rule).1.state = .Failed) := by
  simp only [reconcileRoleAssignmentRule, hapi,
    roleFailures_eq_spec getRoleLookupMap rule.subscriptionID (foundRoleNames rnfrd ras)
      rule.roles hres]
  by_cases hempty : specMissingRoles getRoleLookupMap rule.subscriptionID
      (foundRoleNames rnfrd ras) rule.roles = []
  · simp [hempty, roleAssignmentBaseResult, defaultValidationCondition]
  · have hlen : 0 < (specMissingRoles getRoleLookupMap rule.subscriptionID
        (foundRoleNames rnfrd ras) rule.roles).length := List.length_pos.mpr hempty
    simp [hempty, hlen, roleAssignmentBaseResult, defaultValidationCondition]

/-- C2, witness: a rule with desired roles A and B where only A is granted
fails with exactly the one missing-role-B entry. -/
theorem c2_witness :
    (reconcileRoleAssignmentRule id
        (fun _ _ => .ok [⟨some ⟨some "A"⟩⟩])
        (fun _ => .ok (fun _ => none))
        ⟨[⟨some "A", none⟩, ⟨some "B", none⟩], "p", "s"⟩).2 = none
    ∧ (reconcileRoleAssignmentRule id
        (fun _ _ => .ok [⟨some ⟨some "A"⟩⟩])
        (fun _ => .ok (fun _ => none))
        ⟨[⟨some "A", none⟩, ⟨some "B", none⟩], "p", "s"⟩).1.condition.failures
        = specMissingRoles (fun _ => .ok (fun _ => none)) "s" (foundRoleNames id [⟨some ⟨some "A"⟩⟩])
            [⟨some "A", none⟩, ⟨some "B", none⟩]
    ∧ ((reconcileRoleAssignmentRule id
        (fun _ _ => .ok [⟨some ⟨some "A"⟩⟩])
        (fun _ => .ok (fun _ => none))
        ⟨[⟨some "A", none⟩, ⟨some "B", none⟩], "p", "s"⟩).1.state = .Succeeded
        ↔ specMissingRoles (fun _ => .ok (fun _ => none)) "s" (foundRoleNames id [⟨some ⟨some "A"⟩⟩])
            [⟨some "A", none⟩, ⟨some "B", none⟩] = [])
    ∧ (specMissingRoles (fun _ => .ok (fun _ => none)) "s" (foundRoleNames id [⟨some ⟨some "A"⟩⟩])
          [⟨some "A", none⟩, ⟨some "B", none⟩] ≠ []
        → (reconcileRoleAssignmentRule id
            (fun _ _ => .ok [⟨some ⟨some "A"⟩⟩])
            (fun _ => .ok (fun _ => none))
            ⟨[⟨some "A", none⟩, ⟨some "B", none⟩], "p", "s"⟩).1.state = .Failed) :=
  c2_single_rule_failures id
    (fun _ _ => .ok [⟨some ⟨some "A"⟩⟩])
    (fun _ => .ok (fun _ => none))
    ⟨[⟨some "A", none⟩, ⟨some "B", none⟩], "p", "s"⟩
    [⟨some ⟨some "A"⟩⟩] rfl (by decide)

/-- C3: a role reference whose canonical id (`Name`) is set resolves to that
id unchanged for every lookup-table provider — the provider is never
consulted and no verification of the id is performed — in both the
single-rule resolution chain and the permission-set resolution chain, even
when a friendly `RoleName` is also set (the hypotheses leave it arbitrary). -/
theorem c3_canonical_id_precedence (subscriptionID : String) (role : Role) (n : String)
    (hrole : role.name = some n) (set : PermissionSet) (hset : set.role.name = some n) :
    (∀ getRoleLookupMap, resolveRole getRoleLookupMap subscriptionID role = .ok n)
    ∧ (∀ getRoleLookupMap scopeSub,
        resolvePermissionSetRole getRoleLookupMap scopeSub set = .ok n) := by
  constructor
  · intro getRoleLookupMap
    unfold resolveRole
    rw [hrole]
  · intro getRoleLookupMap scopeSub
    unfold resolvePermissionSetRole
    rw [hset]

/-- C3, witness: a reference with both the canonical id and a friendly name
set resolves to the canonical id under a provider that always fails, so the
provider cannot have been consulted. -/
theorem c3_witness :
    (∀ getRoleLookupMap,
      resolveRole getRoleLookupMap "s" ⟨some "id-1", some "Contributor"⟩ = .ok "id-1")
    ∧ (∀ getRoleLookupMap scopeSub,
        resolvePermissionSetRole getRoleLookupMap scopeSub
          ⟨"sc", ⟨some "id-1", some "Contributor"⟩⟩ = .ok "id-1") :=
  c3_canonical_id_precedence "s" ⟨some "id-1", some "Contributor"⟩ "id-1" rfl
    ⟨"sc", ⟨some "id-1", some "Contributor"⟩⟩ rfl

/-- C4, counterexample: in the second-variant `ReconcileRoleAssignmentRule`,
a rule whose role reference has neither field set (the
`MissingRoleIdentifier` resolution failure) returns a nil error together
with a Failed result — not the non-nil error the claim requires. -/
theorem c4_counterexample :
    (reconcileRoleAssignmentRule2 id (.ok [⟨some ⟨some "r"⟩⟩])
        (fun _ => .error "unused") ⟨⟨none, none⟩, "p", "s"⟩).2 = none
    ∧ (reconcileRoleAssignmentRule2 id (.ok [⟨some ⟨some "r"⟩⟩])
        (fun _ => .error "unused") ⟨⟨none, none⟩, "p", "s"⟩).1.map (fun r => r.state)
        = some .Failed :=
  ⟨rfl, rfl⟩

/-- C4, amended: in the first-variant single-rule validator and the RBAC
validator, resolution failures are hard errors: an Unspecified reference
fails with `errNoRoleIdentifierSpecified` for every provider (so without any
lookup call) and a friendly name absent from the table fails with
`errNoSuchBuiltInRole`; when a desired role (resp. a permission set's role)
fails to resolve — all earlier ones resolving, the fetch having succeeded —
the reconciliation call itself returns exactly that non-nil error with the
failures list left empty; any error return leaves the failures list empty.
The second-variant single-rule validator instead turns these two resolution
failures into a Failed result with a nil error. -/
theorem c4_amended :
    (∀ getRoleLookupMap subscriptionID,
      resolveRole getRoleLookupMap subscriptionID ⟨none, none⟩
        = .error .noRoleIdentifierSpecified)
    ∧ (∀ getRoleLookupMap subscriptionID rn m, getRoleLookupMap subscriptionID = .ok m
        → m rn = none
        → resolveRole getRoleLookupMap subscriptionID ⟨none, some rn⟩
            = .error .noSuchBuiltInRole)
    ∧ (∀ rnfrd api getRoleLookupMap rule ras pre role rest e,
        rule.roles = pre ++ role :: rest
        → pre.all (resolvesOk getRoleLookupMap rule.subscriptionID) = true
        → resolveRole getRoleLookupMap rule.subscriptionID role = .error e
        → api rule.subscriptionID (principalIDFilter rule.servicePrincipalID) = .ok ras
        → (reconcileRoleAssignmentRule rnfrd api getRoleLookupMap rule).2 = some e
          ∧ (reconcileRoleAssignmentRule rnfrd api getRoleLookupMap rule).1.condition.failures = [])
    ∧ (∀ rnfrd api getRoleLookupMap scopeSub rule pre set rest e ras,
        rule.permissions = pre ++ set :: rest
        → pre.all (setProcessOk api getRoleLookupMap scopeSub rule.securityPrincipalID) = true
        → api set.scope (principalIDFilter rule.securityPrincipalID) = .ok ras
        → resolvePermissionSetRole getRoleLookupMap scopeSub set = .error e
        → (reconcileRBACRule rnfrd api getRoleLookupMap scopeSub rule).2 = some e
          ∧ (reconcileRBACRule rnfrd api getRoleLookupMap scopeSub rule).1.condition.failures = [])
    ∧ (∀ rnfrd api getRoleLookupMap rule e,
        (reconcileRoleAssignmentRule rnfrd api getRoleLookupMap rule).2 = some e
        → (reconcileRoleAssignmentRule rnfrd api getRoleLookupMap rule).1.condition.failures = [])
    ∧ (∀ rnfrd api getRoleLookupMap scopeSub rule e,
        (reconcileRBACRule rnfrd api getRoleLookupMap scopeSub rule).2 = some e
        → (reconcileRBACRule rnfrd api getRoleLookupMap scopeSub rule).1.condition.failures = [])
    ∧ (∀ rnfrd ras builtInRoleLookupMap p s, ras ≠ []
        → (reconcileRoleAssignmentRule2 rnfrd (.ok ras) builtInRoleLookupMap
            ⟨⟨none, none⟩, p, s⟩).2 = none
          ∧ (reconcileRoleAssignmentRule2 rnfrd (.ok ras) builtInRoleLookupMap
              ⟨⟨none, none⟩, p, s⟩).1.map (fun r => r.state) = some .Failed) := by
  refine ⟨fun g sub => rfl, ?_, ?_, ?_, ?_, ?_, ?_⟩
  · intro g sub rn m hm hnone
    simp [resolveRole, hm, hnone]
  · intro rnfrd api getRoleLookupMap rule ras pre role rest e hroles hpre hrole hapi
    have hrf : roleFailures getRoleLookupMap rule.subscriptionID
        (foundRoleNames rnfrd ras) rule.roles = .error e := by
      rw [hroles]
      exact roleFailures_error_at getRoleLookupMap rule.subscriptionID
        (foundRoleNames rnfrd ras) pre role rest e hrole hpre
    unfold reconcileRoleAssignmentRule
    simp [hapi, hrf, roleAssignmentBaseResult, defaultValidationCondition]
  · intro rnfrd api getRoleLookupMap scopeSub rule pre set rest e ras hperm hpre hapi hres
    have hps : processPermissionSets rnfrd api getRoleLookupMap scopeSub
        rule.securityPrincipalID rule.permissions [] = .error e := by
      rw [hperm]
      exact processPermissionSets_error_at rnfrd api getRoleLookupMap scopeSub
        rule.securityPrincipalID pre set rest e ras [] hapi hres hpre
    unfold reconcileRBACRule
    simp [hps, rbacBaseResult, defaultValidationCondition]
  · intro rnfrd api getRoleLookupMap rule e h
    unfold reconcileRoleAssignmentRule at h ⊢
    cases hapi : api rule.subscriptionID (principalIDFilter rule.servicePrincipalID) with
    | error e2 => simp [hapi, roleAssignmentBaseResult, defaultValidationCondition]
    | ok ras =>
      simp only [hapi] at h ⊢
      cases hrf : roleFailures getRoleLookupMap rule.subscriptionID
          (foundRoleNames rnfrd ras) rule.roles with
      | error e2 => simp [hrf, roleAssignmentBaseResult, defaultValidationCondition]
      | ok fs =>
        simp only [hrf] at h
        by_cases hlen : fs.length > 0 <;> simp [hlen] at h
  · intro rnfrd api getRoleLookupMap scopeSub rule e h
    unfold reconcileRBACRule at h ⊢
    cases hps : processPermissionSets rnfrd api getRoleLookupMap scopeSub
        rule.securityPrincipalID rule.permissions [] with
    | error e2 => simp [hps, rbacBaseResult, defaultValidationCondition]
    | ok fs =>
      simp only [hps] at h
      by_cases hlen : fs.length > 0 <;> simp [hlen] at h
  · intro rnfrd ras builtInRoleLookupMap p s hras
    unfold reconcileRoleAssignmentRule2
    have hlen : ¬ ras.length = 0 := by
      intro h0
      exact hras (List.length_eq_zero.mp h0)
    simp [hlen, failValidationResult]

/-- C4, witness: concrete instances of each amended conjunct, with every
hypothesis discharged at the instance — in particular, a rule whose only
role is Unspecified makes the first-variant reconciliation call return the
`errNoRoleIdentifierSpecified` hard error, and a set whose friendly name is
absent from the table makes the RBAC call return `errNoSuchBuiltInRole`. -/
theorem c4_witness :
    resolveRole (fun _ => .error "boom") "s" ⟨none, none⟩
      = .error .noRoleIdentifierSpecified
    ∧ resolveRole (fun _ => .ok (fun _ => none)) "s" ⟨none, some "NoSuchRole"⟩
        = .error .noSuchBuiltInRole
    ∧ ((reconcileRoleAssignmentRule id (fun _ _ => .ok [])
          (fun _ => .ok (fun _ => none)) ⟨[⟨none, none⟩], "p", "s"⟩).2
        = some .noRoleIdentifierSpecified
      ∧ (reconcileRoleAssignmentRule id (fun _ _ => .ok [])
          (fun _ => .ok (fun _ => none)) ⟨[⟨none, none⟩], "p", "s"⟩).1.condition.failures = [])
    ∧ ((reconcileRBACRule id (fun _ _ => .ok []) (fun _ => .ok (fun _ => none))
          (fun _ => .ok "s") ⟨"p", [⟨"sc", ⟨none, some "NoSuchRole"⟩⟩]⟩).2
        = some .noSuchBuiltInRole
      ∧ (reconcileRBACRule id (fun _ _ => .ok []) (fun _ => .ok (fun _ => none))
          (fun _ => .ok "s") ⟨"p", [⟨"sc", ⟨none, some "NoSuchRole"⟩⟩]⟩).1.condition.failures = [])
    ∧ (reconcileRoleAssignmentRule id (fun _ _ => .error "boom")
        (fun _ => .ok (fun _ => none)) ⟨[], "p", "s"⟩).1.condition.failures = []
    ∧ (reconcileRBACRule id (fun _ _ => .error "boom")
        (fun _ => .ok (fun _ => none)) (fun _ => .ok "s")
        ⟨"p", [⟨"sc", ⟨some "r", none⟩⟩]⟩).1.condition.failures = []
    ∧ ((reconcileRoleAssignmentRule2 id (.ok [⟨some ⟨some "r"⟩⟩])
          (fun _ => .error "unused") ⟨⟨none, none⟩, "p", "s"⟩).2 = none
        ∧ (reconcileRoleAssignmentRule2 id (.ok [⟨some ⟨some "r"⟩⟩])
            (fun _ => .error "unused") ⟨⟨none, none⟩, "p", "s"⟩).1.map (fun r => r.state)
            = some .Failed) :=
  ⟨c4_amended.1 (fun _ => .error "boom") "s",
   c4_amended.2.1 (fun _ => .ok (fun _ => none)) "s" "NoSuchRole" (fun _ => none) rfl rfl,
   c4_amended.2.2.1 id (fun _ _ => .ok []) (fun _ => .ok (fun _ => none))
     ⟨[⟨none, none⟩], "p", "s"⟩ [] [] ⟨none, none⟩ [] .noRoleIdentifierSpecified
     rfl rfl rfl rfl,
   c4_amended.2.2.2.1 id (fun _ _ => .ok []) (fun _ => .ok (fun _ => none))
     (fun _ => .ok "s") ⟨"p", [⟨"sc", ⟨none, some "NoSuchRole"⟩⟩]⟩ []
     ⟨"sc", ⟨none, some "NoSuchRole"⟩⟩ [] .noSuchBuiltInRole [] rfl rfl rfl rfl,
   c4_amended.2.2.2.2.1 id (fun _ _ => .error "boom") (fun _ => .ok (fun _ => none))
     ⟨[], "p", "s"⟩ (.apiError "boom") rfl,
   c4_amended.2.2.2.2.2.1 id (fun _ _ => .error "boom") (fun _ => .ok (fun _ => none))
     (fun _ => .ok "s") ⟨"p", [⟨"sc", ⟨some "r", none⟩⟩]⟩
     (.apiError "failed to get role assignments: boom") rfl,
   c4_amended.2.2.2.2.2.2 id [⟨some ⟨some "r"⟩⟩] (fun _ => .error "unused") "p" "s"
     (by decide)⟩

/-- C5, counterexample: the second-variant `ReconcileRoleAssignmentRule`,
given an empty grant list, returns without a hard error a result whose state
is Failed but whose failures list is empty — so `failures` non-empty iff
`state == Failed` does not hold for every validator, and the failure
transition does not attach a failures list on this path. -/
theorem c5_counterexample :
    (reconcileRoleAssignmentRule2 id (.ok []) (fun _ => .error "unused")
        ⟨⟨some "r", none⟩, "p", "s"⟩).2 = none
    ∧ (reconcileRoleAssignmentRule2 id (.ok []) (fun _ => .error "unused")
        ⟨⟨some "r", none⟩, "p", "s"⟩).1.map (fun r => r.state) = some .Failed
    ∧ (reconcileRoleAssignmentRule2 id (.ok []) (fun _ => .error "unused")
        ⟨⟨some "r", none⟩, "p", "s"⟩).1.map (fun r => r.condition.failures) = some [] :=
  ⟨rfl, rfl, rfl⟩

/-- C5, amended: for every result returned without a hard error by the
first-variant single-rule validator or the RBAC validator, the failures
list is non-empty iff the state is Failed, and the one-way transition to
failure sets all four fields together (Failed state, false condition status,
replaced message, attached failures) while a Succeeded result keeps all four
optimistic fields; the second-variant single-rule validator violates the
iff by returning Failed results with empty failures lists. -/
theorem c5_amended :
    (∀ rnfrd api getRoleLookupMap rule,
      (reconcileRoleAssignmentRule rnfrd api getRoleLookupMap rule).2 = none
      → ((reconcileRoleAssignmentRule rnfrd api getRoleLookupMap rule).1.condition.failures ≠ []
          ↔ (reconcileRoleAssignmentRule rnfrd api getRoleLookupMap rule).1.state = .Failed)
        ∧ ((reconcileRoleAssignmentRule rnfrd api getRoleLookupMap rule).1.state = .Failed
            → (reconcileRoleAssignmentRule rnfrd api getRoleLookupMap rule).1.condition.status = false
              ∧ (reconcileRoleAssignmentRule rnfrd api getRoleLookupMap rule).1.condition.message
                  = "Service principal missing one or more required roles."
              ∧ (reconcileRoleAssignmentRule rnfrd api getRoleLookupMap rule).1.condition.failures ≠ [])
        ∧ ((reconcileRoleAssignmentRule rnfrd api getRoleLookupMap rule).1.state = .Succeeded
            → (reconcileRoleAssignmentRule rnfrd api getRoleLookupMap rule).1.condition.status = true
              ∧ (reconcileRoleAssignmentRule rnfrd api getRoleLookupMap rule).1.condition.message
                  = "Service principal has all required roles."
              ∧ (reconcileRoleAssignmentRule rnfrd api getRoleLookupMap rule).1.condition.failures = []))
    ∧ (∀ rnfrd api getRoleLookupMap scopeSub rule,
        (reconcileRBACRule rnfrd api getRoleLookupMap scopeSub rule).2 = none
        → ((reconcileRBACRule rnfrd api getRoleLookupMap scopeSub rule).1.condition.failures ≠ []
            ↔ (reconcileRBACRule rnfrd api getRoleLookupMap scopeSub rule).1.state = .Failed)
          ∧ ((reconcileRBACRule rnfrd api getRoleLookupMap scopeSub rule).1.state = .Failed
              → (reconcileRBACRule rnfrd api getRoleLookupMap scopeSub rule).1.condition.status = false
                ∧ (reconcileRBACRule rnfrd api getRoleLookupMap scopeSub rule).1.condition.message
                    = "Security principal missing one or more required roles."
                ∧ (reconcileRBACRule rnfrd api getRoleLookupMap scopeSub rule).1.condition.failures ≠ [])
          ∧ ((reconcileRBACRule rnfrd api getRoleLookupMap scopeSub rule).1.state = .Succeeded
              → (reconcileRBACRule rnfrd api getRoleLookupMap scopeSub rule).1.condition.status = true
                ∧ (reconcileRBACRule rnfrd api getRoleLookupMap scopeSub rule).1.condition.message
                    = "Security principal has all required roles."
                ∧ (reconcileRBACRule rnfrd api getRoleLookupMap scopeSub rule).1.condition.failures = [])) := by
  constructor
  · intro rnfrd api getRoleLookupMap rule h
    unfold reconcileRoleAssignmentRule at h ⊢
    cases hapi : api rule.subscriptionID (principalIDFilter rule.servicePrincipalID) with
    | error e2 => simp [hapi] at h
    | ok ras =>
      simp only [hapi] at h ⊢
      cases hrf : roleFailures getRoleLookupMap rule.subscriptionID
          (foundRoleNames rnfrd ras) rule.roles with
      | error e2 => simp [hrf] at h
      | ok fs =>
        simp only [hrf] at h ⊢
        by_cases hlen : fs.length > 0
        · have hfs : fs ≠ [] := by
            intro h0
            rw [h0] at hlen
            simp at hlen
          simp [hlen, hfs, roleAssignmentBaseResult, defaultValidationCondition]
        · have hfs : fs = [] := by
            rw [Nat.not_lt, Nat.le_zero, List.length_eq_zero] at hlen
            exact hlen
          simp [hlen, hfs, roleAssignmentBaseResult, defaultValidationCondition]
  · intro rnfrd api getRoleLookupMap scopeSub rule h
    unfold reconcileRBACRule at h ⊢
    cases hps : processPermissionSets rnfrd api getRoleLookupMap scopeSub
        rule.securityPrincipalID rule.permissions [] with
    | error e2 => simp [hps] at h
    | ok fs =>
      simp only [hps] at h ⊢
      by_cases hlen : fs.length > 0
      · have hfs : fs ≠ [] := by
          intro h0
          rw [h0] at hlen
          simp at hlen
        simp [hlen, hfs, rbacBaseResult, defaultValidationCondition]
      · have hfs : fs = [] := by
          rw [Nat.not_lt, Nat.le_zero, List.length_eq_zero] at hlen
          exact hlen
        simp [hlen, hfs, rbacBaseResult, defaultValidationCondition]

/-- C5, witness: the amended invariants instantiated on a succeeding run of
each validator (no grants needed, no desired roles / no sets). -/
theorem c5_witness :
    ((reconcileRoleAssignmentRule id (fun _ _ => .ok []) (fun _ => .ok (fun _ => none))
        ⟨[], "p", "s"⟩).1.condition.failures ≠ []
      ↔ (reconcileRoleAssignmentRule id (fun _ _ => .ok []) (fun _ => .ok (fun _ => none))
          ⟨[], "p", "s"⟩).1.state = .Failed)
    ∧ ((reconcileRBACRule id (fun _ _ => .ok []) (fun _ => .ok (fun _ => none))
        (fun _ => .ok "s") ⟨"p", []⟩).1.condition.failures ≠ []
      ↔ (reconcileRBACRule id (fun _ _ => .ok []) (fun _ => .ok (fun _ => none))
          (fun _ => .ok "s") ⟨"p", []⟩).1.state = .Failed) :=
  ⟨(c5_amended.1 id (fun _ _ => .ok []) (fun _ => .ok (fun _ => none)) ⟨[], "p", "s"⟩ rfl).1,
   (c5_amended.2 id (fun _ _ => .ok []) (fun _ => .ok (fun _ => none)) (fun _ => .ok "s")
     ⟨"p", []⟩ rfl).1⟩

/-- C6, counterexample: a permission set with scope `"scope-A"` whose role
`"r"` is missing contributes exactly one failure entry, but that entry is
`"Security principal missing role r"` — it does not name the scope
(splitting the entry on `"scope-A"` yields a single piece, i.e. the scope
does not occur in it), and the same entry is what `ReconcileRBACRule`
attaches as the whole failures list. -/
theorem c6_counterexample :
    processPermissionSet id (fun _ _ => .ok []) (fun _ => .error "unused")
        (fun _ => .error "unused") ⟨"scope-A", ⟨some "r", none⟩⟩ "p" []
      = .ok ["Security principal missing role r"]
    ∧ ¬ ("scope-A".toList <:+: "Security principal missing role r".toList)
    ∧ (reconcileRBACRule id (fun _ _ => .ok []) (fun _ => .error "unused")
        (fun _ => .error "unused") ⟨"p", [⟨"scope-A", ⟨some "r", none⟩⟩]⟩).1.condition.failures
      = ["Security principal missing role r"] := by
  refine ⟨rfl, by decide, rfl⟩

/-- C6, amended: for a multi-scope rule in which every permission set fetches
and resolves without a hard error, the final failures list is exactly the
in-order concatenation of the per-set contributions: one entry
`"Security principal missing role <id>"` per set whose resolved role is
absent from that set's grant set (naming the missing role but not the set's
scope), and nothing for sets whose resolved role is present. -/
theorem c6_amended (rnfrd : String → String)
    (api : String → String → Except String (List RoleAssignment))
    (getRoleLookupMap : String → Except String (String → Option String))
    (scopeSub : String → Except String String) (rule : RBACRule)
    (h : rule.permissions.all
        (setProcessOk api getRoleLookupMap scopeSub rule.securityPrincipalID) = true) :
    (reconcileRBACRule rnfrd api getRoleLookupMap scopeSub rule).2 = none
    ∧ (reconcileRBACRule rnfrd api getRoleLookupMap scopeSub rule).1.condition.failures
        = rule.permissions.filterMap
            (specSetContribution rnfrd api getRoleLookupMap scopeSub rule.securityPrincipalID)
    ∧ (∀ set ∈ rule.permissions,
        specSetContribution rnfrd api getRoleLookupMap scopeSub rule.securityPrincipalID set = none
        ∨ ∃ roleName roleAssignments,
            api set.scope (principalIDFilter rule.securityPrincipalID) = .ok roleAssignments
            ∧ resolvePermissionSetRole getRoleLookupMap scopeSub set = .ok roleName
            ∧ (foundRoleNames rnfrd roleAssignments).contains roleName = false
            ∧ specSetContribution rnfrd api getRoleLookupMap scopeSub rule.securityPrincipalID set
                = some ("Security principal missing role " ++ roleName)) := by
  have hps := processPermissionSets_eq_spec rnfrd api getRoleLookupMap scopeSub
    rule.securityPrincipalID rule.permissions [] h
  rw [List.nil_append] at hps
  refine ⟨?_, ?_, ?_⟩
  · simp only [reconcileRBACRule, hps]
    by_cases hempty : (rule.permissions.filterMap
        (specSetContribution rnfrd api getRoleLookupMap scopeSub rule.securityPrincipalID)) = []
    · simp [hempty]
    · have hlen : 0 < (rule.permissions.filterMap
          (specSetContribution rnfrd api getRoleLookupMap scopeSub
            rule.securityPrincipalID)).length := List.length_pos.mpr hempty
      simp [hlen]
  · simp only [reconcileRBACRule, hps]
    by_cases hempty : (rule.permissions.filterMap
        (specSetContribution rnfrd api getRoleLookupMap scopeSub rule.securityPrincipalID)) = []
    · simp [hempty, rbacBaseResult, defaultValidationCondition]
    · have hlen : 0 < (rule.permissions.filterMap
          (specSetContribution rnfrd api getRoleLookupMap scopeSub
            rule.securityPrincipalID)).length := List.length_pos.mpr hempty
      simp [hlen]
  · intro set hset
    rw [List.all_eq_true] at h
    have h1 := h set hset
    unfold setProcessOk at h1
    rw [Bool.and_eq_true] at h1
    obtain ⟨ha, hr⟩ := h1
    cases hapi : api set.scope (principalIDFilter rule.securityPrincipalID) with
    | error e => rw [hapi] at ha; simp at ha
    | ok roleAssignments =>
      cases hres : resolvePermissionSetRole getRoleLookupMap scopeSub set with
      | error e => rw [hres] at hr; simp at hr
      | ok roleName =>
        by_cases hmem : roleName ∈ foundRoleNames rnfrd roleAssignments
        · left
          unfold specSetContribution
          rw [hapi, hres]
          simp [hmem]
        · right
          refine ⟨roleName, roleAssignments, rfl, rfl, ?_, ?_⟩
          · simpa using hmem
          · unfold specSetContribution
            rw [hapi, hres]
            simp [hmem]

/-- C6, witness: a two-set rule where set 1's role is granted and set 2's is
missing yields no error and exactly set 2's single missing-role entry. -/
theorem c6_witness :
    (reconcileRBACRule id
        (fun sc _ => if sc = "s1" then .ok [⟨some ⟨some "r1"⟩⟩] else .ok [])
        (fun _ => .error "unused") (fun _ => .error "unused")
        ⟨"p", [⟨"s1", ⟨some "r1", none⟩⟩, ⟨"s2", ⟨some "r2", none⟩⟩]⟩).2 = none
    ∧ (reconcileRBACRule id
        (fun sc _ => if sc = "s1" then .ok [⟨some ⟨some "r1"⟩⟩] else .ok [])
        (fun _ => .error "unused") (fun _ => .error "unused")
        ⟨"p", [⟨"s1", ⟨some "r1", none⟩⟩, ⟨"s2", ⟨some "r2", none⟩⟩]⟩).1.condition.failures
      = [⟨"s1", ⟨some "r1", none⟩⟩, ⟨"s2", ⟨some "r2", none⟩⟩].filterMap
          (specSetContribution id
            (fun sc _ => if sc = "s1" then .ok [⟨some ⟨some "r1"⟩⟩] else .ok [])
            (fun _ => .error "unused") (fun _ => .error "unused") "p") :=
  ⟨(c6_amended id (fun sc _ => if sc = "s1" then .ok [⟨some ⟨some "r1"⟩⟩] else .ok [])
      (fun _ => .error "unused") (fun _ => .error "unused")
      ⟨"p", [⟨"s1", ⟨some "r1", none⟩⟩, ⟨"s2", ⟨some "r2", none⟩⟩]⟩ (by decide)).1,
   (c6_amended id (fun sc _ => if sc = "s1" then .ok [⟨some ⟨some "r1"⟩⟩] else .ok [])
      (fun _ => .error "unused") (fun _ => .error "unused")
      ⟨"p", [⟨"s1", ⟨some "r1", none⟩⟩, ⟨"s2", ⟨some "r2", none⟩⟩]⟩ (by decide)).2.1⟩

/-- C7, counterexample: with a scope-parse function that fails on every
scope, a permission set whose role carries a canonical id still processes
without any hard error (and `ReconcileRBACRule` returns no error) — the
subscription is not parsed out of the scope string for every permission
set, so an unparsable scope is not always a hard error. -/
theorem c7_counterexample :
    processPermissionSet id (fun _ _ => .ok []) (fun _ => .error "unused")
        (fun _ => .error "no subscription segment in scope")
        ⟨"bad-scope", ⟨some "r", none⟩⟩ "p" []
      = .ok ["Security principal missing role r"]
    ∧ (reconcileRBACRule id (fun _ _ => .ok []) (fun _ => .error "unused")
        (fun _ => .error "no subscription segment in scope")
        ⟨"p", [⟨"bad-scope", ⟨some "r", none⟩⟩]⟩).2 = none :=
  ⟨rfl, rfl⟩

/-- C7, amended: the subscription identifier is parsed out of a permission
set's scope only when the set's role is given by friendly name alone (`Name`
nil, `RoleName` set): a set whose role carries a canonical id is processed
identically under any two scope-parse functions; in the friendly-name case a
parse failure is a hard error that aborts the whole rule — `ReconcileRBACRule`
returns that error, and the later sets are never processed (the outcome is
the same whatever they are). -/
theorem c7_amended :
    (∀ rnfrd api getRoleLookupMap scopeSub scopeSub2 set principalID failures n,
      set.role.name = some n
      → processPermissionSet rnfrd api getRoleLookupMap scopeSub set principalID failures
          = processPermissionSet rnfrd api getRoleLookupMap scopeSub2 set principalID failures)
    ∧ (∀ rnfrd api getRoleLookupMap scopeSub set principalID failures rn e ras,
        set.role.name = none → set.role.roleName = some rn
        → scopeSub set.scope = .error e
        → api set.scope (principalIDFilter principalID) = .ok ras
        → processPermissionSet rnfrd api getRoleLookupMap scopeSub set principalID failures
            = .error (.scopeParseError e))
    ∧ (∀ rnfrd api getRoleLookupMap scopeSub principalID set rest rest2 rn e ras,
        set.role.name = none → set.role.roleName = some rn
        → scopeSub set.scope = .error e
        → api set.scope (principalIDFilter principalID) = .ok ras
        → (reconcileRBACRule rnfrd api getRoleLookupMap scopeSub ⟨principalID, set :: rest⟩).2
            = some (.scopeParseError e)
          ∧ reconcileRBACRule rnfrd api getRoleLookupMap scopeSub ⟨principalID, set :: rest⟩
              = reconcileRBACRule rnfrd api getRoleLookupMap scopeSub ⟨principalID, set :: rest2⟩) := by
  have hone : ∀ rnfrd api getRoleLookupMap scopeSub set principalID failures rn e ras,
      set.role.name = none → set.role.roleName = some rn
      → scopeSub set.scope = .error e
      → api set.scope (principalIDFilter principalID) = .ok ras
      → processPermissionSet rnfrd api getRoleLookupMap scopeSub set principalID failures
          = .error (.scopeParseError e) := by
    intro rnfrd api getRoleLookupMap scopeSub set principalID failures rn e ras hn hrn hsc hapi
    unfold processPermissionSet resolvePermissionSetRole
    rw [hapi, hn, hrn, hsc]
  refine ⟨?_, hone, ?_⟩
  · intro rnfrd api getRoleLookupMap scopeSub scopeSub2 set principalID failures n hn
    unfold processPermissionSet resolvePermissionSetRole
    rw [hn]
  · intro rnfrd api getRoleLookupMap scopeSub principalID set rest rest2 rn e ras hn hrn hsc hapi
    have habort : ∀ rest3 : List PermissionSet,
        reconcileRBACRule rnfrd api getRoleLookupMap scopeSub ⟨principalID, set :: rest3⟩
          = (rbacBaseResult ⟨principalID, set :: rest3⟩, some (.scopeParseError e)) := by
      intro rest3
      unfold reconcileRBACRule processPermissionSets
      rw [hone rnfrd api getRoleLookupMap scopeSub set principalID [] rn e ras hn hrn hsc hapi]
    have hbase : rbacBaseResult ⟨principalID, set :: rest⟩
        = rbacBaseResult ⟨principalID, set :: rest2⟩ := rfl
    rw [habort rest, habort rest2]
    exact ⟨rfl, by rw [hbase]⟩

/-- C7, witness: the amended conjuncts at concrete inputs — a canonical-id
set is insensitive to the scope parser, and a friendly-name set under a
failing parser hard-errors and aborts the rule whatever follows it. -/
theorem c7_witness :
    processPermissionSet id (fun _ _ => .ok []) (fun _ => .ok (fun _ => none))
        (fun _ => .error "bad") ⟨"sc", ⟨some "r", none⟩⟩ "p" []
      = processPermissionSet id (fun _ _ => .ok []) (fun _ => .ok (fun _ => none))
          (fun _ => .ok "sub") ⟨"sc", ⟨some "r", none⟩⟩ "p" []
    ∧ processPermissionSet id (fun _ _ => .ok []) (fun _ => .ok (fun _ => none))
        (fun _ => .error "bad") ⟨"sc", ⟨none, some "Reader"⟩⟩ "p" []
      = .error (.scopeParseError "bad")
    ∧ (reconcileRBACRule id (fun _ _ => .ok []) (fun _ => .ok (fun _ => none))
        (fun _ => .error "bad") ⟨"p", [⟨"sc", ⟨none, some "Reader"⟩⟩]⟩).2
      = some (.scopeParseError "bad")
    ∧ reconcileRBACRule id (fun _ _ => .ok []) (fun _ => .ok (fun _ => none))
        (fun _ => .error "bad") ⟨"p", [⟨"sc", ⟨none, some "Reader"⟩⟩]⟩
      = reconcileRBACRule id (fun _ _ => .ok []) (fun _ => .ok (fun _ => none))
          (fun _ => .error "bad")
          ⟨"p", [⟨"sc", ⟨none, some "Reader"⟩⟩, ⟨"other", ⟨none, none⟩⟩]⟩ := by
  refine ⟨c7_amended.1 id (fun _ _ => .ok []) (fun _ => .ok (fun _ => none))
      (fun _ => .error "bad") (fun _ => .ok "sub") ⟨"sc", ⟨some "r", none⟩⟩ "p" [] "r" rfl,
    c7_amended.2.1 id (fun _ _ => .ok []) (fun _ => .ok (fun _ => none))
      (fun _ => .error "bad") ⟨"sc", ⟨none, some "Reader"⟩⟩ "p" [] "Reader" "bad" [] rfl rfl rfl rfl,
    (c7_amended.2.2 id (fun _ _ => .ok []) (fun _ => .ok (fun _ => none))
      (fun _ => .error "bad") "p" ⟨"sc", ⟨none, some "Reader"⟩⟩ [] [⟨"other", ⟨none, none⟩⟩]
      "Reader" "bad" [] rfl rfl rfl rfl).1,
    (c7_amended.2.2 id (fun _ _ => .ok []) (fun _ => .ok (fun _ => none))
      (fun _ => .error "bad") "p" ⟨"sc", ⟨none, some "Reader"⟩⟩ [] [⟨"other", ⟨none, none⟩⟩]
      "Reader" "bad" [] rfl rfl rfl rfl).2⟩

/-- C8, counterexample: the Multi-Scope Validator does not identify its
result by a role-derived label: for a rule with principal `"p"` whose only
set carries the friendly name `"Reader"` (resolving to a granted-free
`"rdef"`), the result's rule identifier is built from `"p"`, not from
`"Reader"`. -/
theorem c8_counterexample :
    (reconcileRBACRule id (fun _ _ => .ok []) (fun _ => .ok (fun _ => some "rdef"))
        (fun _ => .ok "sub") ⟨"p", [⟨"sc", ⟨none, some "Reader"⟩⟩]⟩).2 = none
    ∧ (reconcileRBACRule id (fun _ _ => .ok []) (fun _ => .ok (fun _ => some "rdef"))
        (fun _ => .ok "sub") ⟨"p", [⟨"sc", ⟨none, some "Reader"⟩⟩]⟩).1.condition.validationRule
      = validationRulePfx ++ "-" ++ "p"
    ∧ (reconcileRBACRule id (fun _ _ => .ok []) (fun _ => .ok (fun _ => some "rdef"))
        (fun _ => .ok "sub") ⟨"p", [⟨"sc", ⟨none, some "Reader"⟩⟩]⟩).1.condition.validationRule
      ≠ validationRulePfx ++ "-" ++ "Reader" := by
  refine ⟨rfl, rfl, by decide⟩

/-- C8, amended: the first-variant Single-Rule Validator identifies its
result by the rule's service principal id, and the Multi-Scope Validator
likewise identifies its result by the rule's security principal id — not by
a role-derived label; it is the second-variant single-rule validator's
result builder that derives the identifier from the rule's role reference:
the friendly name if set, else the canonical id, else the sentinel
`"invalid-config"`. -/
theorem c8_amended :
    (∀ rnfrd api getRoleLookupMap rule,
      (reconcileRoleAssignmentRule rnfrd api getRoleLookupMap rule).1.condition.validationRule
        = validationRulePfx ++ "-" ++ rule.servicePrincipalID)
    ∧ (∀ rnfrd api getRoleLookupMap scopeSub rule,
        (reconcileRBACRule rnfrd api getRoleLookupMap scopeSub rule).1.condition.validationRule
          = validationRulePfx ++ "-" ++ rule.securityPrincipalID)
    ∧ (∀ rule validationType,
        (buildValidationResult rule validationType).condition.validationRule
          = validationRulePfx ++ "-" ++ ruleIdentifier rule)
    ∧ (∀ rule rn, rule.role.roleName = some rn → ruleIdentifier rule = rn)
    ∧ (∀ rule n, rule.role.roleName = none → rule.role.name = some n
        → ruleIdentifier rule = n)
    ∧ (∀ rule, rule.role.roleName = none → rule.role.name = none
        → ruleIdentifier rule = "invalid-config") := by
  refine ⟨?_, ?_, fun rule validationType => rfl, ?_, ?_, ?_⟩
  · intro rnfrd api getRoleLookupMap rule
    unfold reconcileRoleAssignmentRule
    cases hapi : api rule.subscriptionID (principalIDFilter rule.servicePrincipalID) with
    | error e => simp [hapi, roleAssignmentBaseResult, defaultValidationCondition]
    | ok ras =>
      cases hrf : roleFailures getRoleLookupMap rule.subscriptionID
          (foundRoleNames rnfrd ras) rule.roles with
      | error e => simp [hapi, hrf, roleAssignmentBaseResult, defaultValidationCondition]
      | ok fs =>
        by_cases hlen : fs.length > 0 <;>
          simp [hapi, hrf, hlen, roleAssignmentBaseResult, defaultValidationCondition]
  · intro rnfrd api getRoleLookupMap scopeSub rule
    unfold reconcileRBACRule
    cases hps : processPermissionSets rnfrd api getRoleLookupMap scopeSub
        rule.securityPrincipalID rule.permissions [] with
    | error e => simp [hps, rbacBaseResult, defaultValidationCondition]
    | ok fs =>
      by_cases hlen : fs.length > 0 <;>
        simp [hps, hlen, rbacBaseResult, defaultValidationCondition]
  · intro rule rn hrn
    unfold ruleIdentifier
    rw [hrn]
  · intro rule n hrn hn
    unfold ruleIdentifier
    rw [hrn, hn]
  · intro rule hrn hn
    unfold ruleIdentifier
    rw [hrn, hn]

/-- C8, witness: the identifier equations at concrete rules, including the
three branches of the second-variant label derivation. -/
theorem c8_witness :
    (reconcileRoleAssignmentRule id (fun _ _ => .ok []) (fun _ => .ok (fun _ => none))
        ⟨[], "sp-1", "s"⟩).1.condition.validationRule = validationRulePfx ++ "-" ++ "sp-1"
    ∧ (reconcileRBACRule id (fun _ _ => .ok []) (fun _ => .ok (fun _ => none))
        (fun _ => .ok "s") ⟨"sp-2", []⟩).1.condition.validationRule
      = validationRulePfx ++ "-" ++ "sp-2"
    ∧ (buildValidationResult ⟨⟨some "n1", some "fn1"⟩, "p", "s"⟩
        validationTypeRoleAssignment).condition.validationRule
      = validationRulePfx ++ "-" ++ ruleIdentifier ⟨⟨some "n1", some "fn1"⟩, "p", "s"⟩
    ∧ ruleIdentifier ⟨⟨some "n1", some "fn1"⟩, "p", "s"⟩ = "fn1"
    ∧ ruleIdentifier ⟨⟨some "n1", none⟩, "p", "s"⟩ = "n1"
    ∧ ruleIdentifier ⟨⟨none, none⟩, "p", "s"⟩ = "invalid-config" :=
  ⟨c8_amended.1 id (fun _ _ => .ok []) (fun _ => .ok (fun _ => none)) ⟨[], "sp-1", "s"⟩,
   c8_amended.2.1 id (fun _ _ => .ok []) (fun _ => .ok (fun _ => none)) (fun _ => .ok "s")
     ⟨"sp-2", []⟩,
   c8_amended.2.2.1 ⟨⟨some "n1", some "fn1"⟩, "p", "s"⟩ validationTypeRoleAssignment,
   c8_amended.2.2.2.1 ⟨⟨some "n1", some "fn1"⟩, "p", "s"⟩ "fn1" rfl,
   c8_amended.2.2.2.2.1 ⟨⟨some "n1", none⟩, "p", "s"⟩ "n1" rfl rfl,
   c8_amended.2.2.2.2.2 ⟨⟨none, none⟩, "p", "s"⟩ rfl rfl⟩

/-- C9: each reconciliation function is a deterministic function of the rule
and the behaviour of the injected collaborators: two calls whose injected
grant-fetch, lookup-map (and, for RBAC, scope-parse) collaborators agree
pointwise produce identical results on the same rule. -/
theorem c9_deterministic :
    (∀ rnfrd api api2 getRoleLookupMap getRoleLookupMap2 rule,
      (∀ sub f, api sub f = api2 sub f)
      → (∀ sub, getRoleLookupMap sub = getRoleLookupMap2 sub)
      → reconcileRoleAssignmentRule rnfrd api getRoleLookupMap rule
          = reconcileRoleAssignmentRule rnfrd api2 getRoleLookupMap2 rule)
    ∧ (∀ rnfrd api api2 getRoleLookupMap getRoleLookupMap2 scopeSub scopeSub2 rule,
        (∀ sc f, api sc f = api2 sc f)
        → (∀ sub, getRoleLookupMap sub = getRoleLookupMap2 sub)
        → (∀ sc, scopeSub sc = scopeSub2 sc)
        → reconcileRBACRule rnfrd api getRoleLookupMap scopeSub rule
            = reconcileRBACRule rnfrd api2 getRoleLookupMap2 scopeSub2 rule) := by
  constructor
  · intro rnfrd api api2 getRoleLookupMap getRoleLookupMap2 rule hapi hmap
    have h1 : api = api2 := funext fun sub => funext fun f => hapi sub f
    have h2 : getRoleLookupMap = getRoleLookupMap2 := funext fun sub => hmap sub
    rw [h1, h2]
  · intro rnfrd api api2 getRoleLookupMap getRoleLookupMap2 scopeSub scopeSub2 rule hapi hmap hsc
    have h1 : api = api2 := funext fun sc => funext fun f => hapi sc f
    have h2 : getRoleLookupMap = getRoleLookupMap2 := funext fun sub => hmap sub
    have h3 : scopeSub = scopeSub2 := funext fun sc => hsc sc
    rw [h1, h2, h3]

/-- C9, witness: determinism instantiated on equal concrete collaborators. -/
theorem c9_witness :
    reconcileRoleAssignmentRule id (fun _ _ => .ok []) (fun _ => .ok (fun _ => none))
        ⟨[⟨some "r", none⟩], "p", "s"⟩
      = reconcileRoleAssignmentRule id (fun _ _ => .ok []) (fun _ => .ok (fun _ => none))
          ⟨[⟨some "r", none⟩], "p", "s"⟩
    ∧ reconcileRBACRule id (fun _ _ => .ok []) (fun _ => .ok (fun _ => none))
        (fun _ => .ok "s") ⟨"p", [⟨"sc", ⟨some "r", none⟩⟩]⟩
      = reconcileRBACRule id (fun _ _ => .ok []) (fun _ => .ok (fun _ => none))
          (fun _ => .ok "s") ⟨"p", [⟨"sc", ⟨some "r", none⟩⟩]⟩ :=
  ⟨c9_deterministic.1 id (fun _ _ => .ok []) (fun _ _ => .ok [])
     (fun _ => .ok (fun _ => none)) (fun _ => .ok (fun _ => none))
     ⟨[⟨some "r", none⟩], "p", "s"⟩ (fun _ _ => rfl) (fun _ => rfl),
   c9_deterministic.2 id (fun _ _ => .ok []) (fun _ _ => .ok [])
     (fun _ => .ok (fun _ => none)) (fun _ => .ok (fun _ => none))
     (fun _ => .ok "s") (fun _ => .ok "s") ⟨"p", [⟨"sc", ⟨some "r", none⟩⟩]⟩
     (fun _ _ => rfl) (fun _ => rfl) (fun _ => rfl)⟩

/-- C10: whenever the first-variant `ReconcileRoleAssignmentRule` or
`ReconcileRBACRule` returns a non-nil error, the result returned alongside
it is the untouched optimistic-success value built at the start of the call
— Succeeded state, true status, the original success message, and no
failures attached (in particular, failures accumulated from earlier
permission sets are not attached on the RBAC error path). -/
theorem c10_error_path_result_untouched :
    (∀ rnfrd api getRoleLookupMap rule e,
      (reconcileRoleAssignmentRule rnfrd api getRoleLookupMap rule).2 = some e
      → (reconcileRoleAssignmentRule rnfrd api getRoleLookupMap rule).1
          = roleAssignmentBaseResult rule)
    ∧ (∀ rnfrd api getRoleLookupMap scopeSub rule e,
        (reconcileRBACRule rnfrd api getRoleLookupMap scopeSub rule).2 = some e
        → (reconcileRBACRule rnfrd api getRoleLookupMap scopeSub rule).1
            = rbacBaseResult rule)
    ∧ (∀ rule : RoleAssignmentRule,
        (roleAssignmentBaseResult rule).state = .Succeeded
        ∧ (roleAssignmentBaseResult rule).condition.failures = []
        ∧ (roleAssignmentBaseResult rule).condition.status = true
        ∧ (roleAssignmentBaseResult rule).condition.message
            = "Service principal has all required roles.")
    ∧ (∀ rule : RBACRule,
        (rbacBaseResult rule).state = .Succeeded
        ∧ (rbacBaseResult rule).condition.failures = []
        ∧ (rbacBaseResult rule).condition.status = true
        ∧ (rbacBaseResult rule).condition.message
            = "Security principal has all required roles.") := by
  refine ⟨?_, ?_, fun rule => ⟨rfl, rfl, rfl, rfl⟩, fun rule => ⟨rfl, rfl, rfl, rfl⟩⟩
  · intro rnfrd api getRoleLookupMap rule e h
    unfold reconcileRoleAssignmentRule at h ⊢
    cases hapi : api rule.subscriptionID (principalIDFilter rule.servicePrincipalID) with
    | error e2 => simp [hapi]
    | ok ras =>
      simp only [hapi] at h ⊢
      cases hrf : roleFailures getRoleLookupMap rule.subscriptionID
          (foundRoleNames rnfrd ras) rule.roles with
      | error e2 => simp [hrf]
      | ok fs =>
        simp only [hrf] at h
        by_cases hlen : fs.length > 0 <;> simp [hlen] at h
  · intro rnfrd api getRoleLookupMap scopeSub rule e h
    unfold reconcileRBACRule at h ⊢
    cases hps : processPermissionSets rnfrd api getRoleLookupMap scopeSub
        rule.securityPrincipalID rule.permissions [] with
    | error e2 => simp [hps]
    | ok fs =>
      simp only [hps] at h
      by_cases hlen : fs.length > 0 <;> simp [hlen] at h

/-- C10, witness: an RBAC rule whose first set accumulates a compliance
failure and whose second set's fetch hard-errors returns the untouched
optimistic result (no failures attached), and the single-rule validator
behaves the same on a fetch error. -/
theorem c10_witness :
    (reconcileRoleAssignmentRule id (fun _ _ => .error "boom")
        (fun _ => .ok (fun _ => none)) ⟨[⟨some "r", none⟩], "p", "s"⟩).1
      = roleAssignmentBaseResult ⟨[⟨some "r", none⟩], "p", "s"⟩
    ∧ (reconcileRBACRule id
        (fun sc _ => if sc = "s1" then .ok [] else .error "boom")
        (fun _ => .ok (fun _ => none)) (fun _ => .ok "s")
        ⟨"p", [⟨"s1", ⟨some "r1", none⟩⟩, ⟨"s2", ⟨some "r2", none⟩⟩]⟩).1
      = rbacBaseResult ⟨"p", [⟨"s1", ⟨some "r1", none⟩⟩, ⟨"s2", ⟨some "r2", none⟩⟩]⟩ :=
  ⟨c10_error_path_result_untouched.1 id (fun _ _ => .error "boom")
     (fun _ => .ok (fun _ => none)) ⟨[⟨some "r", none⟩], "p", "s"⟩
     (.apiError "boom") rfl,
   c10_error_path_result_untouched.2.1 id
     (fun sc _ => if sc = "s1" then .ok [] else .error "boom")
     (fun _ => .ok (fun _ => none)) (fun _ => .ok "s")
     ⟨"p", [⟨"s1", ⟨some "r1", none⟩⟩, ⟨"s2", ⟨some "r2", none⟩⟩]⟩
     (.apiError "failed to get role assignments: boom") rfl⟩

end AzureValidator
